import Mathlib

/-!
Shallow embedding of the Polar-H10 research client's zip/CSV ingestion layer
(`urap_polar/zip_loader.py`) and session data model (`urap_polar/session.py`).

Modelling conventions:
* Python `str` is Lean `String`; all text algorithms are re-implemented with
  structural recursion over `List Char` so that every definition evaluates
  inside the kernel.
* Python `float` is modelled as `ℚ` (exact rational arithmetic; the claims
  under verification concern selection, defaulting and structure, not IEEE
  rounding).  Only finite decimal / scientific literals are modelled by the
  numeric parsers; `inf`/`nan` and underscore separators are out of scope.
* Python `int` is `Int`.
* `datetime` objects are `PyDatetime`: a wall-clock reading in seconds since
  the Unix epoch together with an optional UTC offset (`none` = naive).  The
  process-local timezone is modelled as UTC.  Python raises `TypeError` when
  ordering or subtracting a naive and an aware datetime, and `ValueError` when
  `timestamp()` is taken of a naive datetime at the calendar boundary
  (`datetime.min` in particular); computations that can raise are modelled
  with `Except String`, carrying the exception name.
* A zip archive is the association list of its entry names and (decoded) text
  contents; entry names are assumed distinct, as produced by the exporter.
-/

/-- ASCII whitespace recognised by Python's `str.strip` (unicode spaces are out
of scope for the archive format). -/
def isPySpace (c : Char) : Bool :=
  c == ' ' || c == '\t' || c == '\n' || c == '\r' || c == '\x0b' || c == '\x0c'

/-- Strip leading and trailing whitespace from a character list. -/
def stripChars (cs : List Char) : List Char :=
  ((cs.dropWhile isPySpace).reverse.dropWhile isPySpace).reverse

/-- Python `str.strip()`. -/
def pyStrip (s : String) : String :=
  (stripChars s.toList).asString

/-- Worker for `pySplitlines`: split at `\n`, `\r\n` or `\r`; a trailing line
break produces no trailing empty line, an empty string produces no lines. -/
def splitLinesAux : List Char → List Char → List String
  | [], acc => if acc.isEmpty then [] else [acc.reverse.asString]
  | '\r' :: '\n' :: rest, acc => acc.reverse.asString :: splitLinesAux rest []
  | '\r' :: rest, acc => acc.reverse.asString :: splitLinesAux rest []
  | '\n' :: rest, acc => acc.reverse.asString :: splitLinesAux rest []
  | c :: rest, acc => splitLinesAux rest (c :: acc)

/-- Python `str.splitlines()` (restricted to the ASCII line breaks that occur
in the archive format). -/
def pySplitlines (s : String) : List String :=
  splitLinesAux s.toList []

/-- Worker for `pySplitChar`. -/
def splitOnCharAux (sep : Char) : List Char → List Char → List String
  | [], acc => [acc.reverse.asString]
  | c :: rest, acc =>
    if c = sep then acc.reverse.asString :: splitOnCharAux sep rest []
    else splitOnCharAux sep rest (c :: acc)

/-- Python `str.split(sep)` for a single-character separator
(`"".split(",") = [""]`, exactly as in Python). -/
def pySplitChar (s : String) (sep : Char) : List String :=
  splitOnCharAux sep s.toList []

/-- Worker for `pySplitFirst`. -/
def splitFirstAux (sep : Char) : List Char → List Char → Option (String × String)
  | [], _ => none
  | c :: rest, acc =>
    if c = sep then some (acc.reverse.asString, rest.asString)
    else splitFirstAux sep rest (c :: acc)

/-- Split a string at the first occurrence of `sep`, as in the
`idx = line.find(","); line[:idx], line[idx+1:]` idiom of the source;
`none` when the separator does not occur. -/
def pySplitFirst (s : String) (sep : Char) : Option (String × String) :=
  splitFirstAux sep s.toList []

/-- Substring test worker. -/
def containsSubAux (nd : List Char) : List Char → Bool
  | [] => nd.isEmpty
  | c :: t => if nd.isPrefixOf (c :: t) then true else containsSubAux nd t

/-- Python `needle in haystack` on strings. -/
def pyContains (hay nd : String) : Bool :=
  containsSubAux nd.toList hay.toList

/-- Python `str.startswith`. -/
def pyStartsWith (s pre : String) : Bool :=
  pre.toList.isPrefixOf s.toList

/-- Python `str.endswith`. -/
def pyEndsWith (s suf : String) : Bool :=
  suf.toList.reverse.isPrefixOf s.toList.reverse

/-- Worker for `pyReplace`; the fuel argument starts at the list length, and
matches are consumed left to right without overlap, as in Python. -/
def replaceAux (pat rep : List Char) : Nat → List Char → List Char
  | _, [] => []
  | 0, l => l
  | Nat.succ n, c :: t =>
    if pat.isPrefixOf (c :: t) then
      rep ++ replaceAux pat rep n (t.drop (pat.length - 1))
    else
      c :: replaceAux pat rep n t

/-- Python `str.replace(pat, rep)` for a non-empty pattern. -/
def pyReplace (s pat rep : String) : String :=
  (replaceAux pat.toList rep.toList s.toList.length s.toList).asString

/-- Join a list of strings with commas (`",".join(...)`). -/
def joinComma : List String → String
  | [] => ""
  | [x] => x
  | x :: y :: t => x ++ "," ++ joinComma (y :: t)

/-- Join a list of strings with underscores (`"_".join(...)`). -/
def joinUnder : List String → String
  | [] => ""
  | [x] => x
  | x :: y :: t => x ++ "_" ++ joinUnder (y :: t)

/-- ASCII decimal digit test. -/
def isDigitChar (c : Char) : Bool := '0' ≤ c && c ≤ '9'

/-- Numeric value of a digit list (caller guarantees digits). -/
def digitsToNat (cs : List Char) : Nat :=
  cs.foldl (fun n c => n * 10 + (c.toNat - 48)) 0

/-- Parse a non-empty all-digit list. -/
def natOfDigits? (cs : List Char) : Option Nat :=
  if cs.isEmpty then none
  else if cs.all isDigitChar then some (digitsToNat cs) else none

/-- Signed integer literal over a character list: optional sign then digits. -/
def intOfChars? : List Char → Option Int
  | '+' :: t => (natOfDigits? t).map Int.ofNat
  | '-' :: t => (natOfDigits? t).map fun n => -(n : Int)
  | t => (natOfDigits? t).map Int.ofNat

/-- Python `int(s)` on a string: surrounding whitespace is ignored, the body is
an optional sign and decimal digits (underscore separators are not modelled). -/
def pyParseInt (s : String) : Option Int :=
  intOfChars? (stripChars s.toList)

/-- Mantissa of a float literal: `digits`, `digits.`, `digits.digits` or
`.digits`, returned as a rational. -/
def mantissaOfChars? (cs : List Char) : Option ℚ :=
  match splitFirstAux '.' cs [] with
  | none => (natOfDigits? cs).map fun n => (n : ℚ)
  | some (ip, fp) =>
    let ipl := ip.toList
    let fpl := fp.toList
    if ipl.isEmpty && fpl.isEmpty then none
    else if ipl.all isDigitChar && fpl.all isDigitChar then
      some ((digitsToNat ipl : ℚ) + (digitsToNat fpl : ℚ) / ((10 : ℚ) ^ fpl.length))
    else none

/-- Unsigned float literal with optional exponent part. -/
def unsignedFloatOfChars? (cs : List Char) : Option ℚ :=
  let split :=
    match splitFirstAux 'e' cs [] with
    | some p => some p
    | none => splitFirstAux 'E' cs []
  match split with
  | none => mantissaOfChars? cs
  | some (m, e) => do
    let mv ← mantissaOfChars? m.toList
    let ev ← intOfChars? e.toList
    if 0 ≤ ev then pure (mv * (10 : ℚ) ^ ev.toNat)
    else pure (mv / (10 : ℚ) ^ (-ev).toNat)

/-- Python `float(s)` on a string, restricted to finite decimal / scientific
literals (`inf`, `nan` and underscore separators are not modelled). -/
def pyParseFloat (s : String) : Option ℚ :=
  match stripChars s.toList with
  | '+' :: t => unsignedFloatOfChars? t
  | '-' :: t => (unsignedFloatOfChars? t).map Neg.neg
  | t => unsignedFloatOfChars? t

/-- Floor of a rational as an integer (`Int.fdiv` of the numerator by the
positive denominator). -/
def ratFloor (q : ℚ) : Int :=
  Int.fdiv q.num (q.den : Int)

/-- Python `int(x)` on a float: truncation toward zero. -/
def pyTrunc (q : ℚ) : Int :=
  if q < 0 then -ratFloor (-q) else ratFloor q

/-- Leap-year test of the proleptic Gregorian calendar. -/
def isLeapYear (y : Int) : Bool :=
  (y % 4 == 0 && y % 100 != 0) || y % 400 == 0

/-- Number of days of month `m` in year `y`. -/
def daysInMonth (y m : Int) : Int :=
  if m = 2 then (if isLeapYear y then 29 else 28)
  else if m = 4 || m = 6 || m = 9 || m = 11 then 30
  else 31

/-- Days from the civil date `(y, m, d)` to 1970-01-01 (Howard Hinnant's
`days_from_civil` algorithm, negative before the epoch). -/
def daysFromCivil (y m d : Int) : Int :=
  let y' := if m ≤ 2 then y - 1 else y
  let era := Int.fdiv y' 400
  let yoe := y' - era * 400
  let mp := (m + 9) % 12
  let doy := Int.fdiv (153 * mp + 2) 5 + d - 1
  let doe := yoe * 365 + Int.fdiv yoe 4 - Int.fdiv yoe 100 + doy
  era * 146097 + doe - 719468

/-- Civil date from a day count relative to 1970-01-01 (inverse of
`daysFromCivil`). -/
def civilFromDays (z : Int) : Int × Int × Int :=
  let z' := z + 719468
  let era := Int.fdiv z' 146097
  let doe := z' - era * 146097
  let yoe := Int.fdiv (doe - Int.fdiv doe 1460 + Int.fdiv doe 36524 - Int.fdiv doe 146096) 365
  let y := yoe + era * 400
  let doy := doe - (365 * yoe + Int.fdiv yoe 4 - Int.fdiv yoe 100)
  let mp := Int.fdiv (5 * doy + 2) 153
  let d := doy - Int.fdiv (153 * mp + 2) 5 + 1
  let m := mp + (if mp < 10 then 3 else -9)
  (if m ≤ 2 then y + 1 else y, m, d)

/-- Model of a Python `datetime`: the naive wall-clock reading expressed in
seconds since the Unix epoch, and the UTC offset in seconds (`none` = naive,
i.e. no `tzinfo`). -/
structure PyDatetime where
  wall : ℚ
  off : Option ℚ
deriving DecidableEq, Repr

/-- `datetime.min` = naive 0001-01-01T00:00:00. -/
def pyDatetimeMin : PyDatetime :=
  { wall := -62135596800, off := none }

/-- The instant by which datetimes of equal awareness order and subtract:
aware datetimes by their UTC instant, naive ones by the wall clock (the
process-local timezone is modelled as UTC, so this also matches `timestamp()`
for naive datetimes away from the calendar boundary). -/
def dtUtc (d : PyDatetime) : ℚ :=
  d.wall - (d.off.getD 0)

/-- `datetime.timestamp()`.  Aware datetimes return their UTC instant.  Naive
datetimes go through `_mktime`, whose fold probe constructs the local time one
day earlier; within the first day of year 1 that date has year 0, so CPython
raises `ValueError` — in particular `datetime.min.timestamp()` always raises.
Local timezone modelled as UTC. -/
def pyTimestampE (d : PyDatetime) : Except String ℚ :=
  match d.off with
  | some o => .ok (d.wall - o)
  | none => if d.wall - 86400 < pyDatetimeMin.wall then .error "ValueError" else .ok d.wall

/-- Read exactly `n` decimal digits from the front of a character list. -/
def takeDigitsAux : Nat → Nat → List Char → Option (Nat × List Char)
  | 0, acc, cs => some (acc, cs)
  | Nat.succ _, _, [] => none
  | Nat.succ k, acc, c :: t =>
    if isDigitChar c then takeDigitsAux k (acc * 10 + (c.toNat - 48)) t else none

/-- `takeDigitsAux` with a zero accumulator. -/
def takeDigits (n : Nat) (cs : List Char) : Option (Nat × List Char) :=
  takeDigitsAux n 0 cs

/-- Parse the `HH[:MM[:SS[.ffffff]]]` portion of an ISO time; returns the
seconds elapsed since midnight and the unconsumed remainder (the offset part). -/
def parseIsoTime (cs : List Char) : Option (ℚ × List Char) := do
  let (hh, r1) ← takeDigits 2 cs
  if hh > 23 then none else
  match r1 with
  | ':' :: r2 => do
    let (mi, r3) ← takeDigits 2 r2
    if mi > 59 then none else
    match r3 with
    | ':' :: r4 => do
      let (ss, r5) ← takeDigits 2 r4
      if ss > 59 then none else
      match r5 with
      | '.' :: r6 =>
        let fracCs := r6.takeWhile isDigitChar
        let rest := r6.dropWhile isDigitChar
        if fracCs.isEmpty || fracCs.length > 6 then none
        else
          some ((hh * 3600 + mi * 60 + ss : ℚ) +
                  (digitsToNat fracCs : ℚ) / ((10 : ℚ) ^ fracCs.length),
                rest)
      | _ => some ((hh * 3600 + mi * 60 + ss : ℚ), r5)
    | _ => some ((hh * 3600 + mi * 60 : ℚ), r3)
  | _ => some ((hh * 3600 : ℚ), r1)

/-- Parse the optional `±HH:MM` UTC-offset suffix of an ISO string; `none`
result component = naive. The whole input must be consumed. -/
def parseIsoOffset : List Char → Option (Option ℚ)
  | [] => some none
  | '+' :: t => do
    let (oh, r1) ← takeDigits 2 t
    match r1 with
    | ':' :: r2 => do
      let (om, r3) ← takeDigits 2 r2
      if oh > 23 || om > 59 || !r3.isEmpty then none
      else some (some ((oh * 3600 + om * 60 : ℚ)))
    | _ => none
  | '-' :: t => do
    let (oh, r1) ← takeDigits 2 t
    match r1 with
    | ':' :: r2 => do
      let (om, r3) ← takeDigits 2 r2
      if oh > 23 || om > 59 || !r3.isEmpty then none
      else some (some (-(oh * 3600 + om * 60 : ℚ)))
    | _ => none
  | _ => none

/-- Model of `datetime.fromisoformat`: `YYYY-MM-DD`, optionally followed by a
single separator character, `HH[:MM[:SS[.ffffff]]]` and a `±HH:MM` offset.
Invalid dates, times or trailing characters are rejected (→ `none`). -/
def pyFromIsoformat (s : String) : Option PyDatetime := do
  let cs := s.toList
  let (y, r1) ← takeDigits 4 cs
  match r1 with
  | '-' :: r2 => do
    let (mo, r3) ← takeDigits 2 r2
    match r3 with
    | '-' :: r4 => do
      let (dd, r5) ← takeDigits 2 r4
      if y < 1 || mo < 1 || mo > 12 || dd < 1 || (dd : Int) > daysInMonth y mo then none
      else
        let dayWall : ℚ := ((daysFromCivil y mo dd) * 86400 : Int)
        match r5 with
        | [] => some { wall := dayWall, off := none }
        | _sep :: r6 => do
          let (secs, r7) ← parseIsoTime r6
          let off ← parseIsoOffset r7
          some { wall := dayWall + secs, off := off }
    | _ => none
  | _ => none

/-- Left-pad the decimal representation of a natural number with zeros. -/
def padNum (w : Nat) (n : Nat) : String :=
  let s := toString n
  (List.replicate (w - s.length) '0').asString ++ s

/-- Microseconds since the epoch of a wall-clock reading (exact for datetimes
produced by `pyFromIsoformat`, whose fractions have at most 6 digits). -/
def usOfRat (q : ℚ) : Int :=
  ratFloor (q * 1000000)

/-- Model of `datetime.isoformat()`: `YYYY-MM-DDTHH:MM:SS[.ffffff][±HH:MM]`;
the fractional part is printed only when non-zero. -/
def pyIsoformat (d : PyDatetime) : String :=
  let us := usOfRat d.wall
  let dayUs : Int := 86400000000
  let days := Int.fdiv us dayUs
  let rem := (us - days * dayUs).toNat
  let c := civilFromDays days
  let micro := rem % 1000000
  let totS := rem / 1000000
  let datePart := padNum 4 c.1.toNat ++ "-" ++ padNum 2 c.2.1.toNat ++ "-" ++ padNum 2 c.2.2.toNat
  let timePart := padNum 2 (totS / 3600) ++ ":" ++ padNum 2 (totS / 60 % 60) ++ ":" ++ padNum 2 (totS % 60)
  let fracPart := if micro = 0 then "" else "." ++ padNum 6 micro
  let offPart :=
    match d.off with
    | none => ""
    | some o =>
      let sgn := if o < 0 then "-" else "+"
      let om := (ratFloor ((if o < 0 then -o else o) / 60)).toNat
      sgn ++ padNum 2 (om / 60) ++ ":" ++ padNum 2 (om % 60)
  datePart ++ "T" ++ timePart ++ fracPart ++ offPart

/-! ## JSON-like dictionary model

The loosely-typed dicts flowing between `zip_loader.py`, the JSON API and
`session.py` are modelled as structures with one `Option` slot per key the code
reads or writes (`none` = key absent).  Where the code looks a key up under
both camelCase and snake_case, both slots exist.  For the session-level date
values — which the zip loader stores as `datetime`-or-`None` and JSON supplies
as strings — a key set to Python `None` is conflated with an absent key: every
read of those keys is a `.get` with a `None` default or an `or`-truthiness
test, so the two are indistinguishable to the program. -/

/-- A date-typed dict value: an ISO string (JSON path) or a `datetime` object
(zip path). -/
inductive DateVal
  | str (v : String)
  | dt (v : PyDatetime)
deriving DecidableEq

/-- Python truthiness of a date value: `""` is falsy, any `datetime` truthy. -/
def dateValTruthy : DateVal → Bool
  | .str v => v ≠ ""
  | .dt _ => true

/-- `a or b` on optional date values under Python truthiness. -/
def pyOrDate (a b : Option DateVal) : Option DateVal :=
  match a with
  | some v => if dateValTruthy v then some v else b
  | none => b

/-- A point dict `{timestamp, value, monotonicTimestamp}`. -/
structure PointDict where
  timestamp : Option String := none
  value : Option ℚ := none
  monotonicTimestamp : Option ℚ := none
deriving DecidableEq

/-- A statistics dict as read by `SensorData`'s accessors and written by
`_read_statistics_csv` / the synthesis fallback in `load_from_zip`. -/
structure StatsDict where
  sensorId : Option String := none
  sensorName : Option String := none
  duration : Option ℚ := none
  heartRateSamples : Option Int := none
  rrIntervalSamples : Option Int := none
  minHeartRate : Option ℚ := none
  min_heart_rate : Option ℚ := none
  maxHeartRate : Option ℚ := none
  max_heart_rate : Option ℚ := none
  averageHeartRate : Option ℚ := none
  average_heart_rate : Option ℚ := none
  sdnn : Option ℚ := none
  rmssd : Option ℚ := none
  hrvWindow : Option String := none
  hrv_window : Option String := none
  hrvSampleCount : Option ℚ := none
  hrv_sample_count : Option ℚ := none
deriving DecidableEq

/-- A sensor-recording dict (`sensorRecordings` element). -/
structure SensorDict where
  sensorId : Option String := none
  sensor_id : Option String := none
  sensorName : Option String := none
  sensor_name : Option String := none
  heartRateData : Option (List PointDict) := none
  rrIntervalData : Option (List PointDict) := none
  statistics : Option StatsDict := none
deriving DecidableEq

/-- The top-level session dict consumed by `RecordingSession`. -/
structure SessionDict where
  id : Option String := none
  name : Option String := none
  startDate : Option DateVal := none
  start_date : Option DateVal := none
  endDate : Option DateVal := none
  end_date : Option DateVal := none
  duration : Option ℚ := none
  sensorCount : Option Int := none
  totalDataPoints : Option Int := none
  averageHeartRate : Option ℚ := none
  averageSDNN : Option ℚ := none
  averageRMSSD : Option ℚ := none
  sensorRecordings : Option (List SensorDict) := none
  sensor_recordings : Option (List SensorDict) := none
deriving DecidableEq

/-! ## session.py model -/

/-- `session._parse_iso` applied to a string: no stripping, `"Z"` replaced by
`"+00:00"`, parse failure → `none`. -/
def sn_parse_iso_str (s : String) : Option PyDatetime :=
  pyFromIsoformat (pyReplace s "Z" "+00:00")

/-- `session._parse_iso` applied to a date-typed dict value (`None` → `None`,
`datetime` passed through, string parsed). -/
def sn_parse_iso_val : Option DateVal → Option PyDatetime
  | none => none
  | some (.dt d) => some d
  | some (.str s) => sn_parse_iso_str s

/-- `HeartRatePoint` of `session.py`. -/
structure HeartRatePoint where
  timestamp : PyDatetime
  value : Int
  monotonic_timestamp : ℚ
deriving DecidableEq

/-- `RRIntervalPoint` of `session.py`. -/
structure RRIntervalPoint where
  timestamp : PyDatetime
  value : Int
  monotonic_timestamp : ℚ
deriving DecidableEq

/-- `session._point_from_hr`: unparsable / missing timestamps default to
`datetime.min`; value and monotonic default to 0. -/
def point_from_hr (d : PointDict) : HeartRatePoint :=
  { timestamp := ((d.timestamp.bind sn_parse_iso_str).getD pyDatetimeMin)
    value := pyTrunc (d.value.getD 0)
    monotonic_timestamp := d.monotonicTimestamp.getD 0 }

/-- `session._point_from_rr` (same shape as `_point_from_hr`). -/
def point_from_rr (d : PointDict) : RRIntervalPoint :=
  { timestamp := ((d.timestamp.bind sn_parse_iso_str).getD pyDatetimeMin)
    value := pyTrunc (d.value.getD 0)
    monotonic_timestamp := d.monotonicTimestamp.getD 0 }

/-- `SensorData._hr_points` (built eagerly in `__post_init__`). -/
def sensor_hr_points (s : SensorDict) : List HeartRatePoint :=
  (s.heartRateData.getD []).map point_from_hr

/-- `SensorData._rr_points`. -/
def sensor_rr_points (s : SensorDict) : List RRIntervalPoint :=
  (s.rrIntervalData.getD []).map point_from_rr

/-- `self._data.get("statistics", {})`. -/
def sensor_statistics (s : SensorDict) : StatsDict :=
  s.statistics.getD {}

/-- `s.get(camelKey, s.get(snakeKey, 0))` for numeric statistics values. -/
def get2q (a b : Option ℚ) : ℚ :=
  match a with
  | some v => v
  | none => b.getD 0

/-- `SensorData.heart_rate_avg`: `int(...)` of the dual-cased lookup. -/
def heart_rate_avg (s : SensorDict) : Int :=
  pyTrunc (get2q (sensor_statistics s).averageHeartRate (sensor_statistics s).average_heart_rate)

/-- `SensorData.sdnn`: `float(s.get("sdnn", 0))`. -/
def sensor_sdnn (s : SensorDict) : ℚ :=
  (sensor_statistics s).sdnn.getD 0

/-- `SensorData.rmssd`: `float(s.get("rmssd", 0))`. -/
def sensor_rmssd (s : SensorDict) : ℚ :=
  (sensor_statistics s).rmssd.getD 0

/-- `SensorData.duration_seconds`:
`max(times).timestamp() - min(times).timestamp()` over the timestamps of both
point sequences (`0.0` when both are empty).  `Except.error "TypeError"`
models the error `max`/`min` raise when the list mixes naive and aware
datetimes; `Except.error "ValueError"` the error `timestamp()` raises on a
naive datetime at the calendar boundary (e.g. `datetime.min`). -/
def sensor_duration_seconds (s : SensorDict) : Except String ℚ :=
  let hr := sensor_hr_points s
  let rr := sensor_rr_points s
  if hr.isEmpty && rr.isEmpty then .ok 0
  else
    let times := hr.map HeartRatePoint.timestamp ++ rr.map RRIntervalPoint.timestamp
    if (times.any fun t => t.off.isSome) && (times.any fun t => t.off.isNone) then
      .error "TypeError"
    else
      match times with
      | [] => .ok 0
      | t :: ts =>
        let dmax := ts.foldl (fun acc u => if dtUtc acc < dtUtc u then u else acc) t
        let dmin := ts.foldl (fun acc u => if dtUtc u < dtUtc acc then u else acc) t
        match pyTimestampE dmax, pyTimestampE dmin with
        | .ok a, .ok b => .ok (a - b)
        | .error e, _ => .error e
        | _, .error e => .error e

/-- `SensorData.data_point_count`. -/
def sensor_data_point_count (s : SensorDict) : Nat :=
  (sensor_hr_points s).length + (sensor_rr_points s).length

/-- `RecordingSession._sensors`: `data.get("sensorRecordings",
data.get("sensor_recordings", []))`. -/
def session_sensors (D : SessionDict) : List SensorDict :=
  match D.sensorRecordings with
  | some l => l
  | none => D.sensor_recordings.getD []

/-- `RecordingSession.id`. -/
def session_id (D : SessionDict) : String :=
  D.id.getD ""

/-- `RecordingSession.name`. -/
def session_name (D : SessionDict) : String :=
  D.name.getD ""

/-- `RecordingSession.start_date`. -/
def session_start_date (D : SessionDict) : Option PyDatetime :=
  sn_parse_iso_val (pyOrDate D.startDate D.start_date)

/-- `RecordingSession.end_date`. -/
def session_end_date (D : SessionDict) : Option PyDatetime :=
  sn_parse_iso_val (pyOrDate D.endDate D.end_date)

/-- `RecordingSession.duration_seconds`: `(end - start).total_seconds()` when
both dates are present, else `0.0`; `Except.error "TypeError"` models the
error raised when subtracting a naive from an aware datetime (or vice versa).
Datetime subtraction never calls `timestamp()`, so no `ValueError` arises. -/
def session_duration_seconds (D : SessionDict) : Except String ℚ :=
  match session_start_date D, session_end_date D with
  | some s, some e =>
    if s.off.isSome = e.off.isSome then .ok (dtUtc e - dtUtc s)
    else .error "TypeError"
  | _, _ => .ok 0

/-- `RecordingSession.sensor_count` = `len(self._sensors)`. -/
def session_sensor_count (D : SessionDict) : Nat :=
  (session_sensors D).length

/-- `RecordingSession.average_heart_rate`: mean of the per-sensor integer
averages over all sensors (0 with no sensors). -/
def average_heart_rate (D : SessionDict) : ℚ :=
  let ss := session_sensors D
  if ss = [] then 0
  else ((ss.map heart_rate_avg).map fun i => (i : ℚ)).sum / (ss.length : ℚ)

/-- `RecordingSession.average_sdnn`: mean over the strictly positive per-sensor
SDNN values only (0.0 when none is positive). -/
def average_sdnn (D : SessionDict) : ℚ :=
  let valid := ((session_sensors D).map sensor_sdnn).filter fun q => 0 < q
  if valid = [] then 0 else valid.sum / (valid.length : ℚ)

/-- `RecordingSession.average_rmssd`. -/
def average_rmssd (D : SessionDict) : ℚ :=
  let valid := ((session_sensors D).map sensor_rmssd).filter fun q => 0 < q
  if valid = [] then 0 else valid.sum / (valid.length : ℚ)

/-! ## zip_loader.py model -/

/-- `zip_loader._parse_iso`: empty / whitespace-only strings are `None`; else
strip, replace `"Z"` with `"+00:00"` and parse (failure → `None`). -/
def zl_parse_iso (s : String) : Option PyDatetime :=
  if pyStrip s = "" then none
  else pyFromIsoformat (pyReplace (pyStrip s) "Z" "+00:00")

/-- One row of the sensor summary table of `session_info.csv` (the
`sensors_table` dicts; `index` is present only on discovery-produced rows). -/
structure SensorRow where
  index : Option Int := none
  sensor_id : String
  sensor_name : String
  hr_samples : Int
  rr_samples : Int
  avg_hr : ℚ
  sdnn : ℚ
  rmssd : ℚ
deriving DecidableEq

/-- The `_int` helper of `_parse_session_info`: strip then `int`, 0 on failure. -/
def int_or0 (s : String) : Int :=
  (pyParseInt (pyStrip s)).getD 0

/-- The `_float` helper of `_parse_session_info`: strip then `float`, 0.0 on
failure. -/
def float_or0 (s : String) : ℚ :=
  (pyParseFloat (pyStrip s)).getD 0

/-- State of the quote-aware CSV field scanner. -/
inductive CsvState
  | atStart
  | inField
  | inQuoted
  | afterQuote
deriving DecidableEq

/-- Quote-aware CSV field scanner for one line, following the default
(non-strict, double-quote) dialect of Python's `csv.reader`. -/
def csvAux : List Char → CsvState → List Char → List String
  | [], _, cur => [cur.reverse.asString]
  | c :: t, .atStart, cur =>
    if c = '"' then csvAux t .inQuoted cur
    else if c = ',' then cur.reverse.asString :: csvAux t .atStart []
    else csvAux t .inField (c :: cur)
  | c :: t, .inField, cur =>
    if c = ',' then cur.reverse.asString :: csvAux t .atStart []
    else csvAux t .inField (c :: cur)
  | c :: t, .inQuoted, cur =>
    if c = '"' then csvAux t .afterQuote cur
    else csvAux t .inQuoted (c :: cur)
  | c :: t, .afterQuote, cur =>
    if c = '"' then csvAux t .inQuoted ('"' :: cur)
    else if c = ',' then cur.reverse.asString :: csvAux t .atStart []
    else csvAux t .inField (c :: cur)

/-- The field list `csv.reader` produces for one (non-blank) line. -/
def csvLineFields (line : String) : List String :=
  csvAux line.toList .atStart []

/-- Parse one line of the sensor summary table (the body of the
`in_sensors` branch of `_parse_session_info`, after the header check): rows
with fewer than 7 CSV fields are skipped, the last 5 fields are the numeric
columns, and the name is rebuilt from the stripped middle fields. -/
def parse_sensor_row (line : String) : Option SensorRow :=
  let row := csvLineFields line
  if row = [] then none
  else if 7 ≤ row.length then
    some
      { index := none
        sensor_id := pyStrip (row.getD 0 "")
        sensor_name :=
          if 7 < row.length then joinComma (((row.drop 1).take (row.length - 6)).map pyStrip)
          else pyStrip (row.getD 1 "")
        hr_samples := int_or0 (row.getD (row.length - 5) "")
        rr_samples := int_or0 (row.getD (row.length - 4) "")
        avg_hr := float_or0 (row.getD (row.length - 3) "")
        sdnn := float_or0 (row.getD (row.length - 2) "")
        rmssd := float_or0 (row.getD (row.length - 1) "") }
  else none

/-- The metadata dict assembled by `_parse_session_info`.  The date fields are
double-`Option`: the outer layer records whether the key was ever written, the
inner layer is the `_parse_iso` result (which may be Python `None`). -/
structure SIMeta where
  id : Option String := none
  name : Option String := none
  startDate : Option (Option PyDatetime) := none
  endDate : Option (Option PyDatetime) := none
  duration : Option ℚ := none
  sensorCount : Option Int := none
  totalDataPoints : Option Int := none
  averageHeartRate : Option ℚ := none
  averageSDNN : Option ℚ := none
  averageRMSSD : Option ℚ := none
deriving DecidableEq

/-- Dispatch one recognised `key,value` metadata line into the meta dict
(unrecognised keys are ignored; numeric parse failures store 0 / 0.0). -/
def set_meta_kv (m : SIMeta) (key value : String) : SIMeta :=
  if key = "Session ID" then { m with id := some value }
  else if key = "Recording Name" then { m with name := some value }
  else if key = "Start Time" then { m with startDate := some (zl_parse_iso value) }
  else if key = "End Time" then { m with endDate := some (zl_parse_iso value) }
  else if key = "Duration (seconds)" then { m with duration := some ((pyParseFloat value).getD 0) }
  else if key = "Number of Sensors" then { m with sensorCount := some ((pyParseInt value).getD 0) }
  else if key = "Total Data Points" then { m with totalDataPoints := some ((pyParseInt value).getD 0) }
  else if key = "Average Heart Rate (BPM)" then { m with averageHeartRate := some ((pyParseFloat value).getD 0) }
  else if key = "Average SDNN (ms)" then { m with averageSDNN := some ((pyParseFloat value).getD 0) }
  else if key = "Average RMSSD (ms)" then { m with averageRMSSD := some ((pyParseFloat value).getD 0) }
  else m

/-- One step of `_parse_session_info`'s line loop; the state is
`(meta, sensors_table, in_sensors)`. -/
def si_step (st : SIMeta × List SensorRow × Bool) (line : String) : SIMeta × List SensorRow × Bool :=
  let m := st.1
  let tbl := st.2.1
  let inS := st.2.2
  if pyStrip line = "" then st
  else if pyStrip line = "Sensors" then (m, tbl, true)
  else if inS then
    if pyContains line "Sensor ID" && pyContains line "Sensor Name" then st
    else
      match parse_sensor_row line with
      | some r => (m, tbl ++ [r], inS)
      | none => st
  else
    match pySplitFirst line ',' with
    | none => st
    | some kv => (set_meta_kv m (pyStrip kv.1) (pyStrip kv.2), tbl, inS)

/-- `zip_loader._parse_session_info`. -/
def parse_session_info (content : String) : SIMeta × List SensorRow :=
  let r := (pySplitlines content).foldl si_step ({}, [], false)
  (r.1, r.2.1)

/-- A zip archive: entry names with their decoded text contents. -/
abbrev ZipArchive := List (String × String)

/-- `ZipFile.namelist()`. -/
def zip_names (z : ZipArchive) : List String :=
  z.map Prod.fst

/-- `ZipFile.read(name)` (`none` models the `KeyError` for a missing entry;
entry names are assumed distinct). -/
def zip_read (z : ZipArchive) (name : String) : Option String :=
  (z.find? fun e => e.1 == name).map Prod.snd

/-- The per-name matcher of `_discover_sensors_from_zip`: names under the
recording folder of the form `sensor_<index>_<sensorId>_hr.csv` (with integer
index) yield a zero-statistics row carrying the parsed index. -/
def discover_row_of_name (pre name : String) : Option SensorRow :=
  if pyStartsWith name pre && pyEndsWith name "_hr.csv" then
    let base := (name.toList.drop pre.toList.length).asString
    if pyStartsWith base "sensor_" then
      let parts := pySplitChar (pyReplace base "_hr.csv" "") '_'
      if 3 ≤ parts.length then
        match pyParseInt (parts.getD 1 "") with
        | some idx =>
          some
            { index := some idx
              sensor_id := joinUnder (parts.drop 2)
              sensor_name := joinUnder (parts.drop 2)
              hr_samples := 0
              rr_samples := 0
              avg_hr := 0
              sdnn := 0
              rmssd := 0 }
        | none => none
      else none
    else none
  else none

/-- Ordering of discovery rows by their `index` key (`sensors_table.sort`). -/
def rowIdxLe (a b : SensorRow) : Prop :=
  a.index.getD 0 ≤ b.index.getD 0

instance : DecidableRel rowIdxLe := fun a b => Int.decLe (a.index.getD 0) (b.index.getD 0)

instance : IsTotal SensorRow rowIdxLe := ⟨fun a b => Int.le_total (a.index.getD 0) (b.index.getD 0)⟩

instance : IsTrans SensorRow rowIdxLe := ⟨fun _ _ _ => Int.le_trans⟩

/-- `zip_loader._discover_sensors_from_zip`: match names, then a stable
ascending sort on the parsed index (Python's `list.sort` is stable; so is
insertion sort). -/
def discover_sensors_from_zip (names : List String) (pre : String) : List SensorRow :=
  List.insertionSort rowIdxLe (names.filterMap (discover_row_of_name pre))

/-- Parse one data row of an HR/RR csv file: at least 4 comma-split fields,
fields 2-4 numeric; an unparsable timestamp is kept as `""`. -/
def parse_hr_row (line : String) : Option PointDict :=
  let parts := pySplitChar line ','
  if parts.length < 4 then none
  else
    let ts := zl_parse_iso (pyStrip (parts.getD 0 ""))
    match pyParseFloat (pyStrip (parts.getD 1 "")),
          pyParseFloat (pyStrip (parts.getD 2 "")),
          pyParseInt (pyStrip (parts.getD 3 "")) with
    | some _, some mono, some v =>
      some
        { timestamp := some (match ts with | some t => pyIsoformat t | none => "")
          value := some (v : ℚ)
          monotonicTimestamp := some mono }
    | _, _, _ => none

/-- `zip_loader._read_hr_csv`: drop the header line, keep the valid rows. -/
def read_hr_csv (content : String) : List PointDict :=
  let lines := pySplitlines (pyStrip content)
  if lines.length < 2 then []
  else (lines.drop 1).filterMap parse_hr_row

/-- `zip_loader._read_rr_csv` (textually identical to `_read_hr_csv` in the
source, down to the column comment). -/
def read_rr_csv (content : String) : List PointDict :=
  read_hr_csv content

/-- Dispatch one recognised `Metric,Value` row of a statistics file (numeric
parse failures drop the key silently). -/
def set_stats_kv (st : StatsDict) (key value : String) : StatsDict :=
  if key = "Sensor ID" then { st with sensorId := some value }
  else if key = "Sensor Name" then { st with sensorName := some value }
  else if key = "Duration (seconds)" then
    match pyParseFloat value with
    | some q => { st with duration := some q }
    | none => st
  else if key = "Heart Rate Samples" then
    match pyParseInt value with
    | some i => { st with heartRateSamples := some i }
    | none => st
  else if key = "RR Interval Samples" then
    match pyParseInt value with
    | some i => { st with rrIntervalSamples := some i }
    | none => st
  else if key = "Min Heart Rate (BPM)" then
    match pyParseInt value with
    | some i => { st with minHeartRate := some (i : ℚ) }
    | none => st
  else if key = "Max Heart Rate (BPM)" then
    match pyParseInt value with
    | some i => { st with maxHeartRate := some (i : ℚ) }
    | none => st
  else if key = "Average Heart Rate (BPM)" then
    match pyParseInt value with
    | some i => { st with averageHeartRate := some (i : ℚ) }
    | none => st
  else if key = "SDNN (ms)" then
    match pyParseFloat value with
    | some q => { st with sdnn := some q }
    | none => st
  else if key = "RMSSD (ms)" then
    match pyParseFloat value with
    | some q => { st with rmssd := some q }
    | none => st
  else if key = "HRV Window" then { st with hrvWindow := some value }
  else if key = "HRV Sample Count" then
    match pyParseInt value with
    | some i => { st with hrvSampleCount := some (i : ℚ) }
    | none => st
  else st

/-- `zip_loader._read_statistics_csv`. -/
def read_statistics_csv (content : String) : StatsDict :=
  let lines := pySplitlines (pyStrip content)
  if lines.length < 2 then {}
  else
    (lines.drop 1).foldl
      (fun st line =>
        match pySplitFirst line ',' with
        | none => st
        | some kv => set_stats_kv st (pyStrip kv.1) (pyStrip kv.2))
      {}

/-- `zip_loader._find_folder_in_zip`: the first entry containing a `/` whose
top segment starts with `recording_` and ends with `_csv` wins. -/
def find_folder_in_zip (names : List String) : Option String :=
  names.findSome? fun n =>
    if pyContains n "/" then
      let top := (pySplitChar n '/').getD 0 ""
      if pyStartsWith top "recording_" && pyEndsWith top "_csv" then some top else none
    else none

/-- The `prefix = folder + "/"` of `load_from_zip`. -/
def folder_pre (folder : String) : String :=
  folder ++ "/"

/-- Minimum of a rational list with Python's `min(..., default=0)` semantics. -/
def listMinQ : List ℚ → ℚ
  | [] => 0
  | x :: xs => xs.foldl min x

/-- Maximum of a rational list with Python's `max(..., default=0)` semantics. -/
def listMaxQ : List ℚ → ℚ
  | [] => 0
  | x :: xs => xs.foldl max x

/-- The statistics dict synthesized by `load_from_zip` when a sensor's
statistics file is missing from the archive. -/
def synth_statistics (hr_data : List PointDict) (row : SensorRow) : StatsDict :=
  { minHeartRate := some (listMinQ (hr_data.map fun p => p.value.getD 0))
    maxHeartRate := some (listMaxQ (hr_data.map fun p => p.value.getD 0))
    averageHeartRate := some ((pyTrunc row.avg_hr : Int) : ℚ)
    sdnn := some row.sdnn
    rmssd := some row.rmssd
    hrvWindow := some ""
    hrvSampleCount := some 0 }

/-- The `sensor_<i+1>_<sensor_id>` file stem of `load_from_zip`'s per-sensor
loop (`i` is the 0-based position of the row in the assembled list). -/
def sensor_file_stem (pre : String) (i : Nat) (row : SensorRow) : String :=
  pre ++ "sensor_" ++ toString (i + 1) ++ "_" ++ row.sensor_id

/-- The HR point dicts read for one sensor (a missing file yields `[]`). -/
def hr_file_data (z : ZipArchive) (pre : String) (i : Nat) (row : SensorRow) : List PointDict :=
  match zip_read z (sensor_file_stem pre i row ++ "_hr.csv") with
  | some c => read_hr_csv c
  | none => []

/-- The RR point dicts read for one sensor (a missing file yields `[]`). -/
def rr_file_data (z : ZipArchive) (pre : String) (i : Nat) (row : SensorRow) : List PointDict :=
  match zip_read z (sensor_file_stem pre i row ++ "_rr.csv") with
  | some c => read_rr_csv c
  | none => []

/-- The body of `load_from_zip`'s per-sensor loop: parse the sensor's three
files independently; missing HR/RR files yield empty sequences, a missing
statistics file triggers the synthesis fallback. -/
def build_sensor (z : ZipArchive) (pre : String) (i : Nat) (row : SensorRow) : SensorDict :=
  let stats :=
    match zip_read z (sensor_file_stem pre i row ++ "_statistics.csv") with
    | some c => read_statistics_csv c
    | none => synth_statistics (hr_file_data z pre i row) row
  { sensorId := some row.sensor_id
    sensorName := some row.sensor_name
    heartRateData := some (hr_file_data z pre i row)
    rrIntervalData := some (rr_file_data z pre i row)
    statistics := some stats }

/-- The sensor row list `load_from_zip` iterates over: the parsed summary
table, or the filename-discovery fallback when that table is empty. -/
def effective_rows (z : ZipArchive) (pre content : String) : List SensorRow :=
  let t := (parse_session_info content).2
  if t = [] then discover_sensors_from_zip (zip_names z) pre else t

/-- Everything `load_from_zip` does after `session_info.csv` has been read
successfully: parse, run the discovery fallback if needed, default `id` and
`name` (`meta.setdefault("id", ""); meta.setdefault("name", meta.get("id",
"Unknown"))`), build each sensor record and assemble the session dict. -/
def assemble_session (z : ZipArchive) (pre content : String) : SessionDict :=
  let meta := (parse_session_info content).1
  let table := effective_rows z pre content
  let recs := table.enum.map fun p => build_sensor z pre p.1 p.2
  let metaId : Option String := some (meta.id.getD "")
  let metaName : Option String := some (meta.name.getD (metaId.getD "Unknown"))
  { id := metaId
    name := metaName
    startDate := (meta.startDate.join).map DateVal.dt
    endDate := (meta.endDate.join).map DateVal.dt
    duration := meta.duration
    sensorCount := meta.sensorCount
    totalDataPoints := meta.totalDataPoints
    averageHeartRate := meta.averageHeartRate
    averageSDNN := meta.averageSDNN
    averageRMSSD := meta.averageRMSSD
    sensorRecordings := some recs }

/-- `zip_loader.load_from_zip`: fails only when no `recording_*_csv` folder is
found or `session_info.csv` is missing from it. -/
def load_from_zip (z : ZipArchive) : Except String SessionDict :=
  match find_folder_in_zip (zip_names z) with
  | none => .error "No recording_*_csv folder found in zip"
  | some folder =>
    match zip_read z (folder_pre folder ++ "session_info.csv") with
    | none => .error ("Missing " ++ folder_pre folder ++ "session_info.csv in zip")
    | some content => .ok (assemble_session z (folder_pre folder) content)

/-! ## Resolved views used by the refinement statement

The four derived statistics of `RecordingSession` depend on the session dict
only through the resolved per-sensor values below and the two parsed dates;
two dicts that agree on these (e.g. a camelCase zip-produced dict and a
snake_case hand-built JSON dict) are "equivalent in-memory records". -/

/-- Per-sensor integer HR averages as resolved by the accessors. -/
def resolved_hr_avgs (D : SessionDict) : List Int :=
  (session_sensors D).map heart_rate_avg

/-- Per-sensor SDNN values as resolved by the accessors. -/
def resolved_sdnns (D : SessionDict) : List ℚ :=
  (session_sensors D).map sensor_sdnn

/-- Per-sensor RMSSD values as resolved by the accessors. -/
def resolved_rmssds (D : SessionDict) : List ℚ :=
  (session_sensors D).map sensor_rmssd

/-! ## Concrete inputs used by the witnesses and counterexamples -/

/-- The session-summary line of the comma-in-name example. -/
def c2row : String := "ABC123,My, Polar Strap,60,60,72,45.20,38.70"

/-- A minimal `session_info.csv` whose sensor table is exactly `c2row`. -/
def c2content : String := "Sensors\n" ++ c2row

/-- Session dict with two sensors of SDNN 45.2 and 0 (and the same RMSSD
values), the spec's exclusion example. -/
def c3exD : SessionDict :=
  { sensorRecordings := some
      [ { statistics := some { sdnn := some (226/5), rmssd := some (226/5) } }
      , { statistics := some { sdnn := some 0, rmssd := some 0 } } ] }

/-- Archive whose `session_info.csv` has neither a `Session ID` nor a
`Recording Name` row. -/
def c4Arch : ZipArchive :=
  [("recording_a_csv/session_info.csv", "just a title line")]

/-- Archive with a well-formed folder and summary file. -/
def c5Arch : ZipArchive :=
  [("recording_b_csv/session_info.csv", "Session ID,sid")]

/-- An HR csv with a header, two valid rows and one row whose monotonic field
is not numeric. -/
def c6content : String :=
  "Timestamp,Unix Time,Monotonic Time,Heart Rate (BPM)\n" ++
  "2024-01-01T10:00:00Z,1704103200,1.5,70\n" ++
  "2024-01-01T10:00:01Z,1704103201,notanum,71\n" ++
  "2024-01-01T10:00:02Z,1704103202,3.5,72"

/-- A `session_info.csv` without a `Sensors` table. -/
def c7Info : String := "Session ID,abc"

/-- Archive with no sensor table but a discoverable `sensor_1_XYZ_hr.csv`. -/
def c7Arch : ZipArchive :=
  [ ("recording_r_csv/session_info.csv", c7Info)
  , ("recording_r_csv/sensor_1_XYZ_hr.csv", "Timestamp,Unix Time,Monotonic Time,Heart Rate (BPM)\n") ]

/-- The sensor row discovery produces for `sensor_1_XYZ_hr.csv`. -/
def c7Row : SensorRow :=
  { index := some 1, sensor_id := "XYZ", sensor_name := "XYZ"
    hr_samples := 0, rr_samples := 0, avg_hr := 0, sdnn := 0, rmssd := 0 }

/-- A summary row as parsed from the `c1Info` sensor table. -/
def c1Row : SensorRow :=
  { index := none, sensor_id := "ABC123", sensor_name := "Polar H10"
    hr_samples := 2, rr_samples := 2, avg_hr := 72, sdnn := 226/5, rmssd := 387/10 }

/-- `session_info.csv` of the round-trip example: metadata (with a deliberate
`Number of Sensors` mismatch) plus a one-row sensor table. -/
def c1Info : String :=
  "Polar H10 Recording\n\n" ++
  "Session ID,testid123\n" ++
  "Recording Name,Test Session\n" ++
  "Start Time,2024-01-01T10:00:00Z\n" ++
  "End Time,2024-01-01T10:10:00Z\n" ++
  "Duration (seconds),600\n" ++
  "Number of Sensors,5\n\n" ++
  "Sensors\n" ++
  "Sensor ID,Sensor Name,HR Samples,RR Samples,Avg HR,SDNN,RMSSD\n" ++
  "ABC123,Polar H10,2,2,72,45.20,38.70\n"

/-- Archive of the round-trip example (no per-sensor files, so the statistics
are synthesized from the summary row). -/
def c1Arch : ZipArchive :=
  [("recording_t_csv/session_info.csv", c1Info)]

/-- The session dict `load_from_zip` produces for `c1Arch`. -/
def c1D : SessionDict :=
  assemble_session c1Arch (folder_pre "recording_t_csv") c1Info

/-- A hand-built snake_case JSON dict carrying the same field values as the
zip-derived `c1D` (string dates instead of datetime objects). -/
def c1Dj : SessionDict :=
  { id := some "testid123"
    name := some "Test Session"
    start_date := some (.str "2024-01-01T10:00:00Z")
    end_date := some (.str "2024-01-01T10:10:00Z")
    duration := some 600
    sensor_recordings := some
      [ { sensor_id := some "ABC123"
          sensor_name := some "Polar H10"
          statistics := some
            { average_heart_rate := some 72
              sdnn := some (226/5)
              rmssd := some (387/10) } } ] }

/-- A sensor dict holding one aware-timestamped point and one point with an
unparsable timestamp. -/
def c10Sensor : SensorDict :=
  { heartRateData := some
      [ { timestamp := some "2024-01-01T10:00:00Z", value := some 70, monotonicTimestamp := some 1 }
      , { timestamp := some "garbage", value := some 71, monotonicTimestamp := some 2 } ] }

/-! ## Shared helper lemmas -/

/-- Indexing a reversed list from the front reads the original from the back. -/
lemma reverse_getD_eq (l : List String) (k : Nat) (h : k < l.length) (d : String) :
    l.reverse.getD k d = l.getD (l.length - 1 - k) d := by
  rw [List.getD_eq_getElem?_getD, List.getD_eq_getElem?_getD, List.getElem?_reverse h]

/-- A left fold of `min` is bounded by its initial value. -/
lemma foldl_min_le_init (xs : List ℚ) (x : ℚ) : xs.foldl min x ≤ x := by
  induction xs generalizing x with
  | nil => exact le_refl x
  | cons y ys ih => exact le_trans (ih (min x y)) (min_le_left x y)

/-- A left fold of `min` is bounded by every list element. -/
lemma foldl_min_le_mem (xs : List ℚ) (x : ℚ) : ∀ y ∈ xs, xs.foldl min x ≤ y := by
  induction xs generalizing x with
  | nil => intro y hy; cases hy
  | cons z zs ih =>
    intro y hy
    rcases List.mem_cons.mp hy with h | h
    · subst h
      exact le_trans (foldl_min_le_init zs (min x y)) (min_le_right x y)
    · exact ih (min x z) y h

/-- A left fold of `min` is the initial value or a list element. -/
lemma foldl_min_mem (xs : List ℚ) (x : ℚ) : xs.foldl min x = x ∨ xs.foldl min x ∈ xs := by
  induction xs generalizing x with
  | nil => exact Or.inl rfl
  | cons z zs ih =>
    rcases ih (min x z) with h | h
    · rcases min_choice x z with hc | hc
      · exact Or.inl (by rw [List.foldl_cons, h, hc])
      · exact Or.inr (by rw [List.foldl_cons, h, hc]; exact List.mem_cons_self z zs)
    · exact Or.inr (List.mem_cons_of_mem z h)

/-- A left fold of `max` is bounded below by its initial value. -/
lemma foldl_max_ge_init (xs : List ℚ) (x : ℚ) : x ≤ xs.foldl max x := by
  induction xs generalizing x with
  | nil => exact le_refl x
  | cons y ys ih => exact le_trans (le_max_left x y) (ih (max x y))

/-- A left fold of `max` is bounded below by every list element. -/
lemma foldl_max_ge_mem (xs : List ℚ) (x : ℚ) : ∀ y ∈ xs, y ≤ xs.foldl max x := by
  induction xs generalizing x with
  | nil => intro y hy; cases hy
  | cons z zs ih =>
    intro y hy
    rcases List.mem_cons.mp hy with h | h
    · subst h
      exact le_trans (le_max_right x y) (foldl_max_ge_init zs (max x y))
    · exact ih (max x z) y h

/-- A left fold of `max` is the initial value or a list element. -/
lemma foldl_max_mem (xs : List ℚ) (x : ℚ) : xs.foldl max x = x ∨ xs.foldl max x ∈ xs := by
  induction xs generalizing x with
  | nil => exact Or.inl rfl
  | cons z zs ih =>
    rcases ih (max x z) with h | h
    · rcases max_choice x z with hc | hc
      · exact Or.inl (by rw [List.foldl_cons, h, hc])
      · exact Or.inr (by rw [List.foldl_cons, h, hc]; exact List.mem_cons_self z zs)
    · exact Or.inr (List.mem_cons_of_mem z h)

/-- Specification of `listMinQ`: 0 on `[]`, else a member below all members. -/
lemma listMinQ_spec (l : List ℚ) :
    (l = [] → listMinQ l = 0) ∧
    (l ≠ [] → listMinQ l ∈ l ∧ ∀ v ∈ l, listMinQ l ≤ v) := by
  constructor
  · intro h; subst h; rfl
  · intro h
    match l with
    | [] => exact absurd rfl h
    | x :: xs =>
      constructor
      · rcases foldl_min_mem xs x with h' | h'
        · rw [listMinQ, h']; exact List.mem_cons_self x xs
        · exact List.mem_cons_of_mem x h'
      · intro v hv
        rcases List.mem_cons.mp hv with h' | h'
        · subst h'; exact foldl_min_le_init xs v
        · exact foldl_min_le_mem xs x v h'

/-- Specification of `listMaxQ`: 0 on `[]`, else a member above all members. -/
lemma listMaxQ_spec (l : List ℚ) :
    (l = [] → listMaxQ l = 0) ∧
    (l ≠ [] → listMaxQ l ∈ l ∧ ∀ v ∈ l, v ≤ listMaxQ l) := by
  constructor
  · intro h; subst h; rfl
  · intro h
    match l with
    | [] => exact absurd rfl h
    | x :: xs =>
      constructor
      · rcases foldl_max_mem xs x with h' | h'
        · rw [listMaxQ, h']; exact List.mem_cons_self x xs
        · exact List.mem_cons_of_mem x h'
      · intro v hv
        rcases List.mem_cons.mp hv with h' | h'
        · subst h'; exact foldl_max_ge_init xs v
        · exact foldl_max_ge_mem xs x v h'

/-! ## Claim theorems -/

set_option maxRecDepth 100000

/-- C3: for every `RecordingSession`, `average_sdnn` (resp. `average_rmssd`)
is the arithmetic mean of the SDNN (resp. RMSSD) values over exactly the
sensors whose value is strictly positive, and `0.0` when no sensor has a
positive value; for the two-sensor example with values 45.2 and 0 the average
is 45.2, not 22.6. -/
theorem c3_average_sdnn_rmssd_positive_only (D : SessionDict) :
    (((session_sensors D).filter fun s => 0 < sensor_sdnn s) = [] → average_sdnn D = 0) ∧
    (((session_sensors D).filter fun s => 0 < sensor_sdnn s) ≠ [] →
      average_sdnn D =
        ((((session_sensors D).filter fun s => 0 < sensor_sdnn s).map sensor_sdnn).sum) /
          ((((session_sensors D).filter fun s => 0 < sensor_sdnn s).length : ℚ))) ∧
    (((session_sensors D).filter fun s => 0 < sensor_rmssd s) = [] → average_rmssd D = 0) ∧
    (((session_sensors D).filter fun s => 0 < sensor_rmssd s) ≠ [] →
      average_rmssd D =
        ((((session_sensors D).filter fun s => 0 < sensor_rmssd s).map sensor_rmssd).sum) /
          ((((session_sensors D).filter fun s => 0 < sensor_rmssd s).length : ℚ))) ∧
    (average_sdnn c3exD = 226/5 ∧ average_sdnn c3exD ≠ 113/5 ∧
      average_rmssd c3exD = 226/5) := by
  have key : ∀ f : SensorDict → ℚ,
      ((session_sensors D).map f).filter (fun q => decide (0 < q)) =
        ((session_sensors D).filter fun s => decide (0 < f s)).map f := by
    intro f
    rw [List.filter_map]
    rfl
  refine ⟨?_, ?_, ?_, ?_, by with_unfolding_all decide, by with_unfolding_all decide,
    by with_unfolding_all decide⟩
  · intro h
    simp only [average_sdnn, key sensor_sdnn, h]
    simp
  · intro h
    have hne : (((session_sensors D).filter fun s => decide (0 < sensor_sdnn s)).map sensor_sdnn) ≠ [] := by
      simpa using h
    simp only [average_sdnn, key sensor_sdnn, if_neg hne, List.length_map]
  · intro h
    simp only [average_rmssd, key sensor_rmssd, h]
    simp
  · intro h
    have hne : (((session_sensors D).filter fun s => decide (0 < sensor_rmssd s)).map sensor_rmssd) ≠ [] := by
      simpa using h
    simp only [average_rmssd, key sensor_rmssd, if_neg hne, List.length_map]

/-- C3 witness: the positive-only mean formula applied to the concrete
two-sensor example. -/
theorem c3_witness :
    average_sdnn c3exD =
      ((((session_sensors c3exD).filter fun s => 0 < sensor_sdnn s).map sensor_sdnn).sum) /
        ((((session_sensors c3exD).filter fun s => 0 < sensor_sdnn s).length : ℚ)) :=
  (c3_average_sdnn_rmssd_positive_only c3exD).2.1 (by with_unfolding_all decide)

/-- C6: for every HR (or RR) CSV body the parser discards the header line and
keeps exactly the data rows with at least 4 comma-separated fields whose
fields 2-4 parse as float, float, int; a valid row with an unparsable
timestamp is kept with an empty timestamp string; and the number of points a
sensor exposes equals the count of valid rows.  On the concrete body with one
non-numeric monotonic field, 2 of the 3 data rows survive. -/
theorem c6_hr_csv_row_filtering :
    (∀ content, read_hr_csv content =
      ((pySplitlines (pyStrip content)).drop 1).filterMap parse_hr_row) ∧
    (∀ line, (parse_hr_row line).isSome ↔
      (4 ≤ (pySplitChar line ',').length ∧
        (pyParseFloat (pyStrip ((pySplitChar line ',').getD 1 ""))).isSome ∧
        (pyParseFloat (pyStrip ((pySplitChar line ',').getD 2 ""))).isSome ∧
        (pyParseInt (pyStrip ((pySplitChar line ',').getD 3 ""))).isSome)) ∧
    (∀ line pt, parse_hr_row line = some pt →
      zl_parse_iso (pyStrip ((pySplitChar line ',').getD 0 "")) = none →
      pt.timestamp = some "") ∧
    (∀ content s, s.heartRateData = some (read_hr_csv content) →
      (sensor_hr_points s).length =
        ((pySplitlines (pyStrip content)).drop 1).countP fun l => (parse_hr_row l).isSome) ∧
    ((read_hr_csv c6content).length = 2 ∧
      ((pySplitlines (pyStrip c6content)).drop 1).length = 3 ∧
      read_rr_csv c6content = read_hr_csv c6content) := by
  have h1 : ∀ content, read_hr_csv content =
      ((pySplitlines (pyStrip content)).drop 1).filterMap parse_hr_row := by
    intro content
    rw [read_hr_csv]
    by_cases h : (pySplitlines (pyStrip content)).length < 2
    · rw [if_pos h, List.drop_eq_nil_of_le (by omega), List.filterMap_nil]
    · rw [if_neg h]
  refine ⟨h1, ?_, ?_, ?_, by with_unfolding_all decide, by with_unfolding_all decide, rfl⟩
  · intro line
    by_cases hlen : (pySplitChar line ',').length < 4
    · simp only [parse_hr_row, if_pos hlen]
      constructor
      · intro h; cases h
      · intro h; omega
    · rcases hf1 : pyParseFloat (pyStrip ((pySplitChar line ',').getD 1 "")) with _ | v1 <;>
      rcases hf2 : pyParseFloat (pyStrip ((pySplitChar line ',').getD 2 "")) with _ | v2 <;>
      rcases hf3 : pyParseInt (pyStrip ((pySplitChar line ',').getD 3 "")) with _ | v3 <;>
        (simp only [parse_hr_row, if_neg hlen]; rw [hf1, hf2, hf3]; simp) <;> omega
  · intro line pt hpt hts
    by_cases hlen : (pySplitChar line ',').length < 4
    · rw [parse_hr_row, if_pos hlen] at hpt
      exact Option.noConfusion hpt
    · rcases hf1 : pyParseFloat (pyStrip ((pySplitChar line ',').getD 1 "")) with _ | v1 <;>
      rcases hf2 : pyParseFloat (pyStrip ((pySplitChar line ',').getD 2 "")) with _ | v2 <;>
      rcases hf3 : pyParseInt (pyStrip ((pySplitChar line ',').getD 3 "")) with _ | v3 <;>
        (rw [parse_hr_row, if_neg hlen] at hpt; rw [hf1, hf2, hf3] at hpt) <;>
        try simp at hpt
      rw [List.getD_eq_getElem?_getD] at hts
      rw [hts] at hpt
      subst hpt
      rfl
  · intro content s hs
    rw [sensor_hr_points, hs, Option.getD_some, List.length_map, h1,
      List.length_filterMap_eq_countP]

/-- C6 witness: the validity characterization and the kept-with-empty-timestamp
behavior instantiated on the malformed-timestamp row
`badts,1.0,2.0,70` and the malformed-monotonic row of `c6content`. -/
theorem c6_witness :
    ((parse_hr_row "badts,1.0,2.0,70").getD {}).timestamp = some "" ∧
    ¬ (parse_hr_row "2024-01-01T10:00:01Z,1704103201,notanum,71").isSome :=
  ⟨c6_hr_csv_row_filtering.2.2.1 "badts,1.0,2.0,70"
      ((parse_hr_row "badts,1.0,2.0,70").getD {})
      (by with_unfolding_all rfl) (by with_unfolding_all rfl),
    fun h => by
      have h2 := (c6_hr_csv_row_filtering.2.1 "2024-01-01T10:00:01Z,1704103201,notanum,71").mp h
      have : (pyParseFloat (pyStrip ((pySplitChar "2024-01-01T10:00:01Z,1704103201,notanum,71" ',').getD 2 ""))).isSome := h2.2.2.1
      rw [show pyParseFloat (pyStrip ((pySplitChar "2024-01-01T10:00:01Z,1704103201,notanum,71" ',').getD 2 "")) = none
        from by with_unfolding_all rfl] at this
      cases this⟩

/-- C2 counterexample: the spec's example row `ABC123,My, Polar Strap,...`
does NOT parse `sensor_name = "My, Polar Strap"`: the parser strips each field
before rejoining, so the space after the embedded comma is lost and the name
is `"My,Polar Strap"` (the rmssd value 38.70 is as claimed). -/
theorem c2_counterexample :
    (parse_session_info c2content).2.map SensorRow.sensor_name = ["My,Polar Strap"] ∧
    (parse_session_info c2content).2.map SensorRow.sensor_name ≠ ["My, Polar Strap"] ∧
    (parse_session_info c2content).2.map SensorRow.rmssd = [387/10] := by
  refine ⟨by with_unfolding_all rfl, ?_, by with_unfolding_all rfl⟩
  rw [show (parse_session_info c2content).2.map SensorRow.sensor_name = ["My,Polar Strap"]
    from by with_unfolding_all rfl]
  decide

/-- C2 (amended): rows of the sensor table with at least 7 CSV fields take
their last 5 fields positionally as `(hr_samples, rr_samples, avg_hr, sdnn,
rmssd)` (parse failures degrading to 0 / 0.0); `sensor_name` rejoins the
whitespace-STRIPPED fields from index 1 up to the last 5 when the row has more
than 7 fields (stripped field 1 alone when exactly 7) — hence the example row
parses `sensor_name = "My,Polar Strap"` (not `"My, Polar Strap"`) and
`rmssd = 38.70`; rows with fewer than 7 fields are skipped silently. -/
theorem c2_amended_last5_positional :
    (∀ line, 7 ≤ (csvLineFields line).length →
      parse_sensor_row line = some
        { index := none
          sensor_id := pyStrip ((csvLineFields line).getD 0 "")
          sensor_name :=
            if 7 < (csvLineFields line).length then
              joinComma ((((csvLineFields line).drop 1).take ((csvLineFields line).length - 6)).map pyStrip)
            else pyStrip ((csvLineFields line).getD 1 "")
          hr_samples := int_or0 ((csvLineFields line).reverse.getD 4 "")
          rr_samples := int_or0 ((csvLineFields line).reverse.getD 3 "")
          avg_hr := float_or0 ((csvLineFields line).reverse.getD 2 "")
          sdnn := float_or0 ((csvLineFields line).reverse.getD 1 "")
          rmssd := float_or0 ((csvLineFields line).reverse.getD 0 "") }) ∧
    (∀ line, (csvLineFields line).length < 7 → parse_sensor_row line = none) ∧
    (parse_session_info c2content).2 =
      [{ index := none, sensor_id := "ABC123", sensor_name := "My,Polar Strap"
         hr_samples := 60, rr_samples := 60, avg_hr := 72, sdnn := 226/5, rmssd := 387/10 }] := by
  refine ⟨?_, ?_, by with_unfolding_all rfl⟩
  · intro line h
    have h0 : ¬ csvLineFields line = [] := by
      intro e
      rw [e] at h
      exact absurd h (by decide)
    have hg : ∀ k : Nat, k < 5 →
        (csvLineFields line).reverse.getD k "" =
          (csvLineFields line).getD ((csvLineFields line).length - 1 - k) "" := by
      intro k hk
      exact reverse_getD_eq (csvLineFields line) k (by omega) ""
    rw [parse_sensor_row, if_neg h0, if_pos h]
    refine congrArg some ?_
    rw [hg 4 (by omega), hg 3 (by omega), hg 2 (by omega), hg 1 (by omega), hg 0 (by omega)]
    have e4 : (csvLineFields line).length - 1 - 4 = (csvLineFields line).length - 5 := by omega
    have e3 : (csvLineFields line).length - 1 - 3 = (csvLineFields line).length - 4 := by omega
    have e2 : (csvLineFields line).length - 1 - 2 = (csvLineFields line).length - 3 := by omega
    have e1 : (csvLineFields line).length - 1 - 1 = (csvLineFields line).length - 2 := by omega
    have e0 : (csvLineFields line).length - 1 - 0 = (csvLineFields line).length - 1 := by omega
    rw [e4, e3, e2, e1, e0]
  · intro line h
    rw [parse_sensor_row]
    by_cases h0 : csvLineFields line = []
    · rw [if_pos h0]
    · rw [if_neg h0, if_neg (by omega)]

/-- C2 witness: the positional rule applied to the concrete example row. -/
theorem c2_witness :
    parse_sensor_row c2row = some
      { index := none, sensor_id := "ABC123", sensor_name := "My,Polar Strap"
        hr_samples := 60, rr_samples := 60, avg_hr := 72, sdnn := 226/5, rmssd := 387/10 } := by
  have h := c2_amended_last5_positional.1 c2row (by with_unfolding_all decide)
  rw [h]
  with_unfolding_all rfl

/-- C4 counterexample: for an archive whose `session_info.csv` carries neither
a session id nor a name, the assembled session's name is the empty string, not
the literal `"Unknown"` the claim predicts. -/
theorem c4_counterexample :
    (load_from_zip c4Arch).toOption.map session_name = some "" ∧
    (load_from_zip c4Arch).toOption.map session_name ≠ some "Unknown" ∧
    (load_from_zip c4Arch).toOption.map session_id = some "" ∧
    (parse_session_info "just a title line").1.id = none ∧
    (parse_session_info "just a title line").1.name = none := by
  refine ⟨by with_unfolding_all rfl, ?_, by with_unfolding_all rfl,
    by with_unfolding_all rfl, by with_unfolding_all rfl⟩
  rw [show (load_from_zip c4Arch).toOption.map session_name = some ""
    from by with_unfolding_all rfl]
  decide

/-- C4 (amended): a missing session id defaults to `""`; a missing name
defaults to the already-defaulted id — hence to `""`, not `"Unknown"`, when
the id is also missing: since `meta.setdefault("id", "")` runs first, the
`meta.get("id", "Unknown")` fallback can never see a missing id and the
`"Unknown"` branch is unreachable. -/
theorem c4_amended_id_name_defaults (z : ZipArchive) (pre content : String) :
    session_id (assemble_session z pre content) =
      ((parse_session_info content).1.id.getD "") ∧
    session_name (assemble_session z pre content) =
      ((parse_session_info content).1.name.getD ((parse_session_info content).1.id.getD "")) ∧
    ((parse_session_info content).1.id = none →
      session_id (assemble_session z pre content) = "") ∧
    ((parse_session_info content).1.id = none → (parse_session_info content).1.name = none →
      session_name (assemble_session z pre content) = "") := by
  refine ⟨?_, ?_, ?_, ?_⟩
  · rw [session_id, assemble_session]
    rfl
  · rw [session_name, assemble_session]
    rfl
  · intro h
    rw [session_id, assemble_session, h]
    rfl
  · intro h hn
    rw [session_name, assemble_session, h, hn]
    rfl

/-- C4 witness: the defaulting rules applied to the concrete id-less and
name-less summary content of `c4Arch`. -/
theorem c4_witness :
    session_name (assemble_session c4Arch (folder_pre "recording_a_csv") "just a title line") = "" :=
  (c4_amended_id_name_defaults c4Arch (folder_pre "recording_a_csv") "just a title line").2.2.2
    (by with_unfolding_all rfl) (by with_unfolding_all rfl)

/-- C5: `load_from_zip` fails if and only if the archive lacks a top-level
`recording_*_csv` folder or lacks `session_info.csv` inside the folder that
was found; whenever both are present the load returns a session record (every
other defect is absorbed by the total parsing functions). -/
theorem c5_fatal_iff_structural (z : ZipArchive) :
    ((∃ e, load_from_zip z = .error e) ↔
      (find_folder_in_zip (zip_names z) = none ∨
        ∃ f, find_folder_in_zip (zip_names z) = some f ∧
          zip_read z (folder_pre f ++ "session_info.csv") = none)) ∧
    (∀ f c, find_folder_in_zip (zip_names z) = some f →
      zip_read z (folder_pre f ++ "session_info.csv") = some c →
      load_from_zip z = .ok (assemble_session z (folder_pre f) c)) := by
  constructor
  · cases hf : find_folder_in_zip (zip_names z) with
    | none => simp [load_from_zip, hf]
    | some f =>
      cases hr : zip_read z (folder_pre f ++ "session_info.csv") with
      | none => simp [load_from_zip, hf, hr]
      | some c => simp [load_from_zip, hf, hr]
  · intro f c hf hr
    simp only [load_from_zip, hf, hr]

/-- C5 witness: a well-formed folder and summary file load successfully. -/
theorem c5_witness :
    load_from_zip c5Arch =
      .ok (assemble_session c5Arch (folder_pre "recording_b_csv") "Session ID,sid") :=
  (c5_fatal_iff_structural c5Arch).2 "recording_b_csv" "Session ID,sid"
    (by with_unfolding_all rfl) (by with_unfolding_all rfl)

/-- C7: when the parsed summary table is empty, `load_from_zip` falls back to
filename discovery; discovery keeps exactly the archive entry names matched by
`discover_row_of_name` (under the recording folder, `sensor_<index>_<id>_hr.csv`
with integer index, id rejoined from the remaining underscore segments), sorts
the rows by index ascending, and gives every discovered row zeroed statistics;
the concrete archive with no `Sensors` table and a `sensor_1_XYZ_hr.csv` entry
yields exactly one sensor with id `XYZ`. -/
theorem c7_discovery_fallback :
    (∀ z pre content, (parse_session_info content).2 = [] →
      effective_rows z pre content = discover_sensors_from_zip (zip_names z) pre) ∧
    (∀ z pre content, (parse_session_info content).2 ≠ [] →
      effective_rows z pre content = (parse_session_info content).2) ∧
    (∀ names pre, List.Sorted rowIdxLe (discover_sensors_from_zip names pre)) ∧
    (∀ names pre r, r ∈ discover_sensors_from_zip names pre ↔
      ∃ n ∈ names, discover_row_of_name pre n = some r) ∧
    (∀ pre n r, discover_row_of_name pre n = some r →
      r.hr_samples = 0 ∧ r.rr_samples = 0 ∧ r.avg_hr = 0 ∧ r.sdnn = 0 ∧ r.rmssd = 0 ∧
        r.sensor_name = r.sensor_id ∧ r.index.isSome) ∧
    (effective_rows c7Arch (folder_pre "recording_r_csv") c7Info = [c7Row] ∧
      (load_from_zip c7Arch).toOption.map
        (fun D => (session_sensors D).map SensorDict.sensorId) = some [some "XYZ"]) := by
  refine ⟨?_, ?_, ?_, ?_, ?_,
    by with_unfolding_all rfl, by with_unfolding_all rfl⟩
  · intro z pre content h
    rw [effective_rows, if_pos h]
  · intro z pre content h
    rw [effective_rows, if_neg h]
  · intro names pre
    exact List.sorted_insertionSort rowIdxLe (names.filterMap (discover_row_of_name pre))
  · intro names pre r
    rw [discover_sensors_from_zip, List.mem_insertionSort, List.mem_filterMap]
  · intro pre n r h
    rw [discover_row_of_name] at h
    split at h
    all_goals try exact Option.noConfusion h
    try simp only [] at h
    split at h
    all_goals try exact Option.noConfusion h
    try simp only [] at h
    split at h
    all_goals try exact Option.noConfusion h
    split at h
    all_goals try exact Option.noConfusion h
    injection h with h'
    subst h'
    exact ⟨rfl, rfl, rfl, rfl, rfl, rfl, rfl⟩

/-- C7 witness: the fallback trigger applied to the concrete table-less
summary content of `c7Arch`. -/
theorem c7_witness :
    effective_rows c7Arch (folder_pre "recording_r_csv") c7Info =
      discover_sensors_from_zip (zip_names c7Arch) (folder_pre "recording_r_csv") :=
  c7_discovery_fallback.1 c7Arch (folder_pre "recording_r_csv") c7Info
    (by with_unfolding_all rfl)

/-- C8: the session assembles one sensor dict per effective row; whenever a
sensor's statistics file is absent from the archive, its statistics are
synthesized: min/max heart rate are the minimum/maximum of the parsed HR point
values (0 when there are none), the average is the summary row's `avg_hr`
truncated to an integer, SDNN/RMSSD are the summary row's values, the HRV
window is the empty string and the HRV sample count is 0. -/
theorem c8_missing_stats_synthesized :
    (∀ z pre content, (assemble_session z pre content).sensorRecordings =
      some ((effective_rows z pre content).enum.map fun p => build_sensor z pre p.1 p.2)) ∧
    (∀ z pre i row,
      zip_read z (sensor_file_stem pre i row ++ "_statistics.csv") = none →
      (build_sensor z pre i row).statistics =
        some (synth_statistics (hr_file_data z pre i row) row)) ∧
    (∀ hr_data row,
      (synth_statistics hr_data row).averageHeartRate = some ((pyTrunc row.avg_hr : Int) : ℚ) ∧
      (synth_statistics hr_data row).sdnn = some row.sdnn ∧
      (synth_statistics hr_data row).rmssd = some row.rmssd ∧
      (synth_statistics hr_data row).hrvWindow = some "" ∧
      (synth_statistics hr_data row).hrvSampleCount = some 0) ∧
    (∀ hr_data row, hr_data = ([] : List PointDict) →
      (synth_statistics hr_data row).minHeartRate = some 0 ∧
      (synth_statistics hr_data row).maxHeartRate = some 0) ∧
    (∀ hr_data row, hr_data ≠ ([] : List PointDict) →
      ∃ m M : ℚ,
        (synth_statistics hr_data row).minHeartRate = some m ∧
        m ∈ hr_data.map (fun p => p.value.getD 0) ∧
        (∀ v ∈ hr_data.map (fun p => p.value.getD 0), m ≤ v) ∧
        (synth_statistics hr_data row).maxHeartRate = some M ∧
        M ∈ hr_data.map (fun p => p.value.getD 0) ∧
        (∀ v ∈ hr_data.map (fun p => p.value.getD 0), v ≤ M)) := by
  refine ⟨?_, ?_, ?_, ?_, ?_⟩
  · intro z pre content
    rw [assemble_session]
  · intro z pre i row h
    rw [build_sensor, h]
  · intro hr_data row
    exact ⟨rfl, rfl, rfl, rfl, rfl⟩
  · intro hr_data row h
    subst h
    exact ⟨rfl, rfl⟩
  · intro hr_data row h
    have hne : hr_data.map (fun p => p.value.getD 0) ≠ [] := by
      simpa using h
    exact ⟨_, _, rfl, ((listMinQ_spec _).2 hne).1, ((listMinQ_spec _).2 hne).2,
      rfl, ((listMaxQ_spec _).2 hne).1, ((listMaxQ_spec _).2 hne).2⟩

/-- C8 witness: the synthesis fallback applied to the sole sensor of `c1Arch`
(whose statistics file is absent): the synthesized statistics carry the
summary row's truncated average 72, SDNN 45.2 and RMSSD 38.7. -/
theorem c8_witness :
    (build_sensor c1Arch (folder_pre "recording_t_csv") 0 c1Row).statistics =
      some (synth_statistics
        (hr_file_data c1Arch (folder_pre "recording_t_csv") 0 c1Row) c1Row) ∧
    synth_statistics (hr_file_data c1Arch (folder_pre "recording_t_csv") 0 c1Row) c1Row =
      { minHeartRate := some 0, maxHeartRate := some 0, averageHeartRate := some 72
        sdnn := some (226/5), rmssd := some (387/10), hrvWindow := some ""
        hrvSampleCount := some 0 } :=
  ⟨c8_missing_stats_synthesized.2.1 c1Arch (folder_pre "recording_t_csv") 0 c1Row
      (by with_unfolding_all rfl),
    by with_unfolding_all rfl⟩

/-- C9: for every archive that loads successfully, the record's sensor count
equals the number of effective sensor rows (summary parse or discovery
fallback) and equals the length of its `sensorRecordings` list — independent
of the `Number of Sensors` metadata value. -/
theorem c9_sensor_count_matches_rows (z : ZipArchive) (f c : String) (D : SessionDict)
    (hf : find_folder_in_zip (zip_names z) = some f)
    (hc : zip_read z (folder_pre f ++ "session_info.csv") = some c)
    (hD : load_from_zip z = .ok D) :
    session_sensor_count D = (effective_rows z (folder_pre f) c).length ∧
    (session_sensors D).length = session_sensor_count D ∧
    D.sensorRecordings = some (session_sensors D) := by
  have hgood : load_from_zip z = .ok (assemble_session z (folder_pre f) c) := by
    simp only [load_from_zip, hf, hc]
  have hD' : assemble_session z (folder_pre f) c = D := by
    rw [hgood] at hD
    exact Except.ok.inj hD
  subst hD'
  refine ⟨?_, rfl, rfl⟩
  rw [session_sensor_count, session_sensors, assemble_session]
  rw [List.length_map, List.enum_length]

/-- C9 witness: on `c1Arch` the metadata records `Number of Sensors,5` while
the record has exactly one sensor, matching the single parsed row. -/
theorem c9_witness :
    session_sensor_count c1D = (effective_rows c1Arch (folder_pre "recording_t_csv") c1Info).length ∧
    session_sensor_count c1D = 1 ∧
    (parse_session_info c1Info).1.sensorCount = some 5 := by
  refine ⟨(c9_sensor_count_matches_rows c1Arch "recording_t_csv" c1Info c1D
      (by with_unfolding_all rfl) (by with_unfolding_all rfl) (by with_unfolding_all rfl)).1,
    by with_unfolding_all rfl, by with_unfolding_all rfl⟩

/-- C1: for every archive whose load yields a session dict `D` and every
hand-built JSON dict `Dj` carrying the same field values — resolving to the
same per-sensor averages/SDNN/RMSSD and the same parsed start/end dates, under
either key casing and either date representation — the two dicts yield
identical `average_heart_rate`, `average_sdnn`, `average_rmssd` and
`duration_seconds`. -/
theorem c1_zip_json_equivalent_stats (z : ZipArchive) (D Dj : SessionDict)
    (_hload : load_from_zip z = .ok D)
    (h1 : resolved_hr_avgs D = resolved_hr_avgs Dj)
    (h2 : resolved_sdnns D = resolved_sdnns Dj)
    (h3 : resolved_rmssds D = resolved_rmssds Dj)
    (h4 : session_start_date D = session_start_date Dj)
    (h5 : session_end_date D = session_end_date Dj) :
    average_heart_rate D = average_heart_rate Dj ∧
    average_sdnn D = average_sdnn Dj ∧
    average_rmssd D = average_rmssd Dj ∧
    session_duration_seconds D = session_duration_seconds Dj := by
  have h1' : (session_sensors D).map heart_rate_avg = (session_sensors Dj).map heart_rate_avg := h1
  have h2' : (session_sensors D).map sensor_sdnn = (session_sensors Dj).map sensor_sdnn := h2
  have h3' : (session_sensors D).map sensor_rmssd = (session_sensors Dj).map sensor_rmssd := h3
  have hlen : (session_sensors D).length = (session_sensors Dj).length := by
    have h := congrArg List.length h1'
    rw [List.length_map, List.length_map] at h
    exact h
  refine ⟨?_, ?_, ?_, ?_⟩
  · by_cases hD0 : session_sensors D = []
    · have hD0' : session_sensors Dj = [] := by
        rw [← List.length_eq_zero, ← hlen, hD0]
        rfl
      simp [average_heart_rate, hD0, hD0']
    · have hD0' : ¬ session_sensors Dj = [] := by
        intro e
        apply hD0
        rw [← List.length_eq_zero, hlen, e]
        rfl
      simp only [average_heart_rate, if_neg hD0, if_neg hD0']
      rw [h1', hlen]
  · simp only [average_sdnn]
    rw [h2']
  · simp only [average_rmssd]
    rw [h3']
  · simp only [session_duration_seconds, h4, h5]

/-- C1 witness: the zip-derived dict of `c1Arch` and the hand-built snake_case
dict `c1Dj` resolve identically and hence agree on all four statistics. -/
theorem c1_witness :
    average_heart_rate c1D = average_heart_rate c1Dj ∧
    average_sdnn c1D = average_sdnn c1Dj ∧
    average_rmssd c1D = average_rmssd c1Dj ∧
    session_duration_seconds c1D = session_duration_seconds c1Dj :=
  c1_zip_json_equivalent_stats c1Arch c1D c1Dj
    (by with_unfolding_all rfl) (by with_unfolding_all rfl) (by with_unfolding_all rfl)
    (by with_unfolding_all rfl) (by with_unfolding_all rfl) (by with_unfolding_all rfl)

/-- C10 counterexample: a sensor with one aware-timestamped point and one
unparsable-timestamped point (which becomes `datetime.min`) does not report
`duration_seconds` as the span down to the minimum instant — the mixed
naive/aware comparison raises `TypeError` instead. -/
theorem c10_counterexample :
    sensor_duration_seconds c10Sensor = .error "TypeError" ∧
    (sensor_hr_points c10Sensor).map HeartRatePoint.timestamp =
      [{ wall := 1704103200, off := some 0 }, pyDatetimeMin] ∧
    sensor_duration_seconds c10Sensor ≠ .ok ((1704103200 : ℚ) - pyDatetimeMin.wall) := by
  refine ⟨by with_unfolding_all rfl, by with_unfolding_all rfl, ?_⟩
  rw [show sensor_duration_seconds c10Sensor = .error "TypeError" from by with_unfolding_all rfl]
  intro h
  exact Except.noConfusion h

/-- C10 (amended): a point dict whose timestamp is missing, empty or
unparsable is indeed kept and assigned `datetime.min`; but a sensor holding
such a point alongside a validly-timestamped one never reports the span down
to the minimum instant: `duration_seconds` raises `TypeError` when the valid
timestamp is offset-aware (mixed naive/aware `max`), and `ValueError` when it
is naive (`datetime.min.timestamp()` itself raises). -/
theorem c10_datetime_min_assignment :
    (∀ d : PointDict, d.timestamp.bind sn_parse_iso_str = none →
      (point_from_hr d).timestamp = pyDatetimeMin ∧
      (point_from_rr d).timestamp = pyDatetimeMin) ∧
    (∀ ts g : String, ∀ v1 v2 m1 m2 : ℚ, ∀ d : PyDatetime,
      sn_parse_iso_str ts = some d → d.off.isSome = true → sn_parse_iso_str g = none →
      sensor_duration_seconds
        { heartRateData := some
            [ { timestamp := some ts, value := some v1, monotonicTimestamp := some m1 }
            , { timestamp := some g, value := some v2, monotonicTimestamp := some m2 } ] } =
        .error "TypeError") ∧
    (∀ ts g : String, ∀ v1 v2 m1 m2 : ℚ, ∀ d : PyDatetime,
      sn_parse_iso_str ts = some d → d.off = none → sn_parse_iso_str g = none →
      pyDatetimeMin.wall + 86400 ≤ d.wall →
      sensor_duration_seconds
        { heartRateData := some
            [ { timestamp := some ts, value := some v1, monotonicTimestamp := some m1 }
            , { timestamp := some g, value := some v2, monotonicTimestamp := some m2 } ] } =
        .error "ValueError") := by
  refine ⟨?_, ?_, ?_⟩
  · intro d h
    constructor
    · rw [point_from_hr]
      simp [h]
    · rw [point_from_rr]
      simp [h]
  · intro ts g v1 v2 m1 m2 d h1 h2 h3
    simp [sensor_duration_seconds, sensor_hr_points, sensor_rr_points, point_from_hr,
      h1, h2, h3, pyDatetimeMin]
  · intro ts g v1 v2 m1 m2 d h1 h2 h3 h4
    have hminwall : pyDatetimeMin.wall = -62135596800 := rfl
    rw [hminwall] at h4
    have hlt : ¬ dtUtc d < dtUtc pyDatetimeMin := by
      simp only [dtUtc, h2, pyDatetimeMin, Option.getD_none]
      intro hc
      norm_num at hc
      linarith
    have hlt2 : dtUtc pyDatetimeMin < dtUtc d := by
      simp only [dtUtc, h2, pyDatetimeMin, Option.getD_none]
      norm_num
      linarith
    have hts1 : pyTimestampE d = .ok d.wall := by
      rw [pyTimestampE]
      simp only [h2]
      rw [if_neg (by rw [hminwall]; intro hc; linarith)]
    have hts2 : pyTimestampE pyDatetimeMin = .error "ValueError" := by
      rw [pyTimestampE]
      norm_num [pyDatetimeMin]
    simp [sensor_duration_seconds, sensor_hr_points, sensor_rr_points, point_from_hr,
      h1, h2, h3, hlt, hlt2, hts1, hts2]
    rfl

/-- C10 witness: the assignment and both failure modes instantiated at
concrete inputs — the naive timestamp `2024-01-01T10:00:00` alongside an
unparsable one yields `ValueError`, and the point itself carries
`datetime.min`. -/
theorem c10_witness :
    (point_from_hr { timestamp := some "garbage" }).timestamp = pyDatetimeMin ∧
    sensor_duration_seconds
      { heartRateData := some
          [ { timestamp := some "2024-01-01T10:00:00", value := some 70, monotonicTimestamp := some 1 }
          , { timestamp := some "garbage", value := some 71, monotonicTimestamp := some 2 } ] } =
      .error "ValueError" :=
  ⟨(c10_datetime_min_assignment.1 { timestamp := some "garbage" }
      (by with_unfolding_all rfl)).1,
    c10_datetime_min_assignment.2.2 "2024-01-01T10:00:00" "garbage" 70 71 1 2
      { wall := 1704103200, off := none }
      (by with_unfolding_all rfl) rfl (by with_unfolding_all rfl)
      (by with_unfolding_all decide)⟩
